import Mathlib

/-!
Shallow embedding of the podcaster Telegram bot's session state machine
(`src/internal/bot/bot.go`).

Modelling conventions:
* The per-user state map `b.states : map[int64]*UserState` becomes a function
  `Store := Int → Option UserState`; the write-through-pointer mutations of the
  Go code become explicit functional updates of the store.
* Outbound effects (Telegram sends, callback acknowledgments) and external
  service calls (OpenAI chat completion, speech synthesis) are recorded in an
  ordered trace of `Out` events.
* The external services are an oracle `Env`: `createChatCompletion` maps a
  prompt to `some content` (the first choice's text) or `none` (error);
  `createSpeech`, `readAll`, `writeFile` tell whether the speech call and the
  two file-handling steps of `generateAndSendAudio` succeed.
* A Go panic (out-of-range slice index, nil map entry dereference) is modelled
  by the `panicked` flag of `Result`; effects already performed before the
  panic (store mutations, sends) are kept, effects after it are not.
* `handleCategorySelection` self-deadlocks in the source: it acquires the
  non-reentrant `b.mu` (bot.go:149) and then calls `getState`, which acquires
  `b.mu` again (bot.go:77). `sync.Mutex` is not reentrant and the update loop
  (bot.go:66-72) handles events on a single goroutine, so the handler blocks
  forever at that point — before any state write, generation call, send or
  acknowledgment. This is modelled by the `deadlocked` flag of `Result`: a
  deadlocked handler leaves the store unchanged and emits nothing, and the
  update loop processes no later event (see `run`). A panic likewise kills the
  process, so `run` stops on either flag.
* Strings are modelled at character granularity (`String.length` and
  `String.data`-level operations), standing in for Go's byte-level
  `len`/slicing; the two agree on ASCII text.
-/

namespace Podcaster

/-- Struct `UserState` from bot.go: a user's current progress. -/
structure UserState where
  Category   : String
  Topic      : String
  WaitingFor : String
  ScriptText : String
deriving Repr, DecidableEq

/-- Constant `StateInitial` from bot.go. -/
def StateInitial : String := "initial"

/-- Constant `StateCategory` from bot.go. -/
def StateCategory : String := "category"

/-- Constant `StateTopic` from bot.go. -/
def StateTopic : String := "topic"

/-- The zero-valued `&UserState{WaitingFor: StateInitial}` record. -/
def freshState : UserState := ⟨"", "", StateInitial, ""⟩

/-- The `states map[int64]*UserState` field of `Bot`. -/
def Store : Type := Int → Option UserState

/-- The empty map `make(map[int64]*UserState)` built by `New`. -/
def emptyStore : Store := fun _ => none

/-- Writing one entry of the map (or mutating the record a stored pointer
points to, which is observationally the same in this embedding). -/
def setState (store : Store) (userID : Int) (st : UserState) : Store :=
  fun u => if u = userID then some st else store u

/-- One outbound effect: a Telegram send or an external-service call. -/
inductive Out where
  | sendMsg (chatID : Int) (text : String)
  | sendKeyboard (chatID : Int) (text : String) (rows : List (List String))
  | sendAudio (chatID : Int) (caption : String)
  | ack (callbackID : String)
  | aiCall (prompt : String)
  | speechCall (input : String)
deriving Repr, DecidableEq

/-- Oracle for the external collaborators of one event's handling. -/
structure Env where
  createChatCompletion : String → Option String
  createSpeech : String → Bool
  readAll : Bool
  writeFile : Bool

/-- Result of handling: the store afterwards, the ordered effect trace,
whether handling panicked (unwinding past the rest of the handler chain and
crashing the process), and whether it deadlocked (blocking the update loop
forever with no further effect). -/
structure Result where
  store : Store
  out : List Out
  panicked : Bool
  deadlocked : Bool

/-- Function `getState` from bot.go: get-or-create the user's state, under
`b.mu` (bot.go:77-78). Returns the store (possibly with a fresh entry
inserted) and the looked-up state. -/
def getState (store : Store) (userID : Int) : Store × UserState :=
  match store userID with
  | some st => (store, st)
  | none => (setState store userID freshState, freshState)

/-- Function `resetState` from bot.go: replace the entry with a fresh initial state. -/
def resetState (store : Store) (userID : Int) : Store :=
  setState store userID freshState

/-- The fixed category list offered by `sendCategories`. -/
def categories : List String := ["Auto", "Health", "Travel", "ML", "Media"]

/-- Function `sendCategories` from bot.go: send the category keyboard (one row) and set
`states[userID].WaitingFor = StateCategory`. The Go code dereferences the map
entry without a presence check, so a missing entry is a nil-pointer panic. -/
def sendCategories (store : Store) (userID : Int) : Result :=
  match store userID with
  | none => ⟨store, [], true, false⟩
  | some st =>
      ⟨setState store userID { st with WaitingFor := StateCategory },
       [Out.sendKeyboard userID "Choose podcast category:" [categories]],
       false, false⟩

/-- Function `sendError` from bot.go: the generic error notice followed by
`sendCategories`. -/
def sendError (store : Store) (userID : Int) : Result :=
  let r := sendCategories store userID
  ⟨r.store, Out.sendMsg userID "Error generating content. Please try again." :: r.out,
   r.panicked, r.deadlocked⟩

/-- Split a character list on the comma character. Mirrors Go
`strings.Split(s, ",")` for the one-character separator: every comma is a cut
point, empty segments are kept, and the empty input yields one empty
segment. -/
def splitChars : List Char → List (List Char)
  | [] => [[]]
  | c :: rest =>
    match splitChars rest with
    | [] => [[]]
    | s :: ss => if c = ',' then [] :: s :: ss else (c :: s) :: ss

/-- Function `splitTopics` from bot.go: `strings.Split(input, ",")`. -/
def splitTopics (input : String) : List String :=
  (splitChars input.data).map String.mk

/-- Function `sendTopics` from bot.go: two keyboard rows `buttons[:3]` and
`buttons[3:]`. Both Go slice expressions are in range exactly when
`len(buttons) ≥ 3`; otherwise the slice panics. (In the source this function
is reachable only from `handleCategorySelection`, bot.go:167, which
deadlocks first; the claims about the topic-offer layout are about this
operation itself.) -/
def sendTopics (store : Store) (userID : Int) (topics : List String) : Result :=
  if topics.length < 3 then ⟨store, [], true, false⟩
  else ⟨store,
        [Out.sendKeyboard userID "Choose a specific topic:"
          [topics.take 3, topics.drop 3]], false, false⟩

/-- The topic-suggestion prompt built at bot.go:156 (dead code behind the
deadlock, kept for the claims that quote it). -/
def topicsPrompt (category : String) : String :=
  "Generate 5 podcast topics about " ++ category ++ ". Return as comma-separated list."

/-- The script prompt built in `handleTopicSelection`. -/
def scriptPrompt (topic category : String) : String :=
  "Create a 2-minute podcast script about " ++ topic ++ " in " ++ category ++
    " category. Keep it under 400 words."

/-- Function `handleCategorySelection` from bot.go:148-168. The source first
acquires `b.mu` (line 149) and then calls `getState`, whose own
`b.mu.Lock()` (line 77) blocks forever on the non-reentrant mutex: the
handler deadlocks before the writes at lines 151-152, the generation call at
line 157 and any send. `getState` blocks before touching the map, so the
store is unchanged and nothing is emitted; everything after line 150 is dead
code and is therefore absent from this definition. -/
def handleCategorySelection (env : Env) (store : Store) (userID : Int)
    (category : String) : Result :=
  ⟨store, [], false, true⟩

/-- Function `generateAndSendAudio` from bot.go: speech call, read, write to a temp
file, send the audio; any failure routes to `sendError`. -/
def generateAndSendAudio (env : Env) (store : Store) (userID : Int)
    (text : String) : Result :=
  if env.createSpeech text then
    if env.readAll then
      if env.writeFile then
        ⟨store, [Out.speechCall text,
                 Out.sendAudio userID "Here's your podcast, enjoy!"], false, false⟩
      else
        let r := sendError store userID
        ⟨r.store, Out.speechCall text :: r.out, r.panicked, r.deadlocked⟩
    else
      let r := sendError store userID
      ⟨r.store, Out.speechCall text :: r.out, r.panicked, r.deadlocked⟩
  else
    let r := sendError store userID
    ⟨r.store, Out.speechCall text :: r.out, r.panicked, r.deadlocked⟩

/-- Function `handleTopicSelection` from bot.go: record the topic, ask the text service
for a script, store it, then hand off to `generateAndSendAudio`. Unlike the
category handler, it calls `getState` before taking `b.mu` (bot.go:186-187),
so there is no nested lock here. -/
def handleTopicSelection (env : Env) (store : Store) (userID : Int)
    (topic : String) : Result :=
  let p := getState store userID
  let st := { p.2 with Topic := topic }
  let store1 := setState p.1 userID st
  let prompt := scriptPrompt topic st.Category
  match env.createChatCompletion prompt with
  | none =>
      let r := sendError store1 userID
      ⟨r.store, Out.aiCall prompt :: r.out, r.panicked, r.deadlocked⟩
  | some script =>
      let store2 := setState store1 userID { st with ScriptText := script }
      let r := generateAndSendAudio env store2 userID script
      ⟨r.store, Out.aiCall prompt :: r.out, r.panicked, r.deadlocked⟩

/-- Function `handleTextRequest` from bot.go: send the stored script, truncated to
4000 characters plus a marker when longer, or the no-script notice. -/
def handleTextRequest (store : Store) (userID : Int) : Result :=
  let p := getState store userID
  let st := p.2
  if st.ScriptText = "" then
    ⟨p.1, [Out.sendMsg userID "No script available. Please create a podcast first!"],
     false, false⟩
  else
    let script := st.ScriptText
    let script1 := if script.length > 4000
      then String.mk (script.data.take 4000) ++ "\n... [truncated]" else script
    ⟨p.1, [Out.sendMsg userID script1], false, false⟩

/-- Function `handleMessage` from bot.go: dispatch on the command text, else offer
categories when the session is still initial. -/
def handleMessage (store : Store) (userID : Int) (text : String) : Result :=
  let p := getState store userID
  let state := p.2
  let store1 := p.1
  if text = "/new" then
    sendCategories (resetState store1 userID) userID
  else if text = "/text" then
    handleTextRequest store1 userID
  else if state.WaitingFor = StateInitial then
    sendCategories store1 userID
  else
    ⟨store1, [], false, false⟩

/-- Function `handleCallback` from bot.go: dispatch a selection on the current phase,
then acknowledge the callback (bot.go:126). A panic in the dispatched handler
unwinds past the acknowledgment and a deadlock blocks before it, so no ack is
emitted in either case. -/
def handleCallback (env : Env) (store : Store) (userID : Int) (data : String)
    (callbackID : String) : Result :=
  let p := getState store userID
  let st := p.2
  let store1 := p.1
  let r :=
    if st.WaitingFor = StateCategory then
      handleCategorySelection env store1 userID data
    else if st.WaitingFor = StateTopic then
      handleTopicSelection env store1 userID data
    else ⟨store1, [], false, false⟩
  if r.panicked || r.deadlocked then r
  else ⟨r.store, r.out ++ [Out.ack callbackID], false, false⟩

/-- One inbound transport event, as dispatched by `Run`'s update loop. -/
inductive Event where
  | message (userID : Int) (text : String)
  | callback (userID : Int) (data : String) (callbackID : String)

/-- One iteration of `Run`'s update loop. -/
def step (env : Env) (store : Store) : Event → Result
  | .message u t => handleMessage store u t
  | .callback u d cb => handleCallback env store u d cb

/-- The store after a sequence of inbound events, each with the oracle in
force when it was handled. The single update-loop goroutine handles events to
completion one at a time, so a panic (process crash) or a deadlock (loop
blocked forever) stops the run: later events are never handled. -/
def run (store : Store) : List (Env × Event) → Store
  | [] => store
  | p :: rest =>
      let r := step p.1 store p.2
      if r.panicked || r.deadlocked then r.store else run r.store rest

/-- All effects emitted over a sequence of inbound events, stopping like
`run` at the first panic or deadlock. -/
def runTrace (store : Store) : List (Env × Event) → List Out
  | [] => []
  | p :: rest =>
      let r := step p.1 store p.2
      if r.panicked || r.deadlocked then r.out
      else r.out ++ runTrace r.store rest

/-- Is this effect a callback acknowledgment? -/
def isAck : Out → Bool
  | .ack _ => true
  | _ => false

/-- Number of callback acknowledgments in a trace. -/
def ackCount (l : List Out) : Nat := (l.filter isAck).length

/-- The prompts of the text-generation calls in a trace, in order. -/
def textGenCalls : List Out → List String
  | [] => []
  | .aiCall p :: rest => p :: textGenCalls rest
  | _ :: rest => textGenCalls rest

/-- No stored session is in the topic phase. -/
def NoTopic (s : Store) : Prop :=
  ∀ u st, s u = some st → st.WaitingFor ≠ StateTopic

/-- Oracle whose text generation always fails. -/
def envFailText : Env := ⟨fun _ => none, fun _ => true, true, true⟩

/-- Oracle whose text generation yields five comma-separated topics and whose
speech pipeline succeeds. -/
def envFive : Env := ⟨fun _ => some "a,b,c,d,e", fun _ => true, true, true⟩

/-- A store with one session that waits for a category selection. -/
def storeCat : Store := setState emptyStore 1 ⟨"", "", StateCategory, ""⟩

/-- A store with one session in the topic phase with category Health. -/
def storeTopicHealth : Store := setState emptyStore 1 ⟨"Health", "", StateTopic, ""⟩

/-- A store with one session holding an empty script in the topic phase. -/
def storeEmptyScript : Store :=
  setState emptyStore 1 ⟨"Health", "Exercise", StateTopic, ""⟩

/-- A 4001-character script. -/
def longScript : String := String.mk (List.replicate 4001 'a')

/-- A store with one session holding `longScript`. -/
def storeLong : Store := setState emptyStore 1 ⟨"Health", "Exercise", StateTopic, longScript⟩

/-- A store with one session holding a short non-empty script. -/
def storeShort : Store := setState emptyStore 1 ⟨"Health", "Exercise", StateTopic, "Hi!"⟩

/-- An event sequence: /new, then the Health selection. -/
def evsGood : List (Env × Event) :=
  [(envFive, Event.message 1 "/new"), (envFive, Event.callback 1 "Health" "cb1")]

end Podcaster

namespace Podcaster

theorem setState_self (s : Store) (u : Int) (st : UserState) :
    setState s u st u = some st := by
  simp [setState]

theorem setState_ne (s : Store) (u v : Int) (st : UserState) (h : v ≠ u) :
    setState s u st v = s v := by
  simp [setState, h]

theorem getState_of_some {s : Store} {u : Int} {st : UserState}
    (h : s u = some st) : getState s u = (s, st) := by
  simp [getState, h]

theorem getState_of_none {s : Store} {u : Int} (h : s u = none) :
    getState s u = (setState s u freshState, freshState) := by
  simp [getState, h]

theorem getState_fst_pres {s : Store} {v : Int} {st : UserState} (u : Int)
    (h : s v = some st) : (getState s u).1 v = some st := by
  cases hu : s u with
  | some st0 => rw [getState_of_some hu]; exact h
  | none =>
      have hv : v ≠ u := fun e => by rw [e, hu] at h; cases h
      rw [getState_of_none hu]
      simpa [setState, hv] using h

theorem handleTextRequest_store (s : Store) (u : Int) :
    (handleTextRequest s u).store = (getState s u).1 := by
  unfold handleTextRequest
  dsimp only
  split <;> rfl

theorem sendCategories_out_cases (s : Store) (u : Int) :
    (sendCategories s u).out = [] ∨
    (sendCategories s u).out =
      [Out.sendKeyboard u "Choose podcast category:" [categories]] := by
  unfold sendCategories
  cases s u
  · exact Or.inl rfl
  · exact Or.inr rfl

theorem textGenCalls_sendCategories (s : Store) (u : Int) :
    textGenCalls (sendCategories s u).out = [] := by
  rcases sendCategories_out_cases s u with h | h <;> rw [h] <;> rfl

theorem textGenCalls_handleTextRequest (s : Store) (u : Int) :
    textGenCalls (handleTextRequest s u).out = [] := by
  unfold handleTextRequest
  dsimp only
  split <;> rfl

theorem textGenCalls_append (a b : List Out) :
    textGenCalls (a ++ b) = textGenCalls a ++ textGenCalls b := by
  induction a with
  | nil => rfl
  | cons x xs ih => cases x <;> simp [textGenCalls, ih]

theorem aiCall_mem_textGenCalls {l : List Out} {p : String}
    (h : Out.aiCall p ∈ l) : p ∈ textGenCalls l := by
  induction l with
  | nil => cases h
  | cons x xs ih =>
      rcases List.mem_cons.mp h with he | hm
      · rw [← he]
        exact List.mem_cons_self _ _
      · cases x <;>
          first
            | exact ih hm
            | exact List.mem_cons_of_mem _ (ih hm)

theorem noTopic_emptyStore : NoTopic emptyStore := by
  intro v st hv
  cases hv

theorem noTopic_setState {s : Store} {u : Int} {st : UserState}
    (hs : NoTopic s) (h : st.WaitingFor ≠ StateTopic) :
    NoTopic (setState s u st) := by
  intro v st2 hv
  by_cases he : v = u
  · rw [he, setState_self] at hv
    cases hv
    exact h
  · rw [setState_ne _ _ _ _ he] at hv
    exact hs v st2 hv

theorem noTopic_getState {s : Store} (u : Int) (hs : NoTopic s) :
    NoTopic (getState s u).1 := by
  cases h : s u with
  | some st => rw [getState_of_some h]; exact hs
  | none =>
      rw [getState_of_none h]
      exact noTopic_setState hs (fun hw => absurd hw (by decide))

theorem noTopic_getState_snd {s : Store} (u : Int) (hs : NoTopic s) :
    (getState s u).2.WaitingFor ≠ StateTopic := by
  cases h : s u with
  | some st => rw [getState_of_some h]; exact hs u st h
  | none =>
      rw [getState_of_none h]
      exact fun hw => absurd (show StateInitial = StateTopic from hw) (by decide)

theorem noTopic_sendCategories {s : Store} (u : Int) (hs : NoTopic s) :
    NoTopic (sendCategories s u).store := by
  unfold sendCategories
  cases s u with
  | none => exact hs
  | some st =>
      exact noTopic_setState hs
        (fun hw => absurd (show StateCategory = StateTopic from hw) (by decide))

theorem noTopic_handleTextRequest {s : Store} (u : Int) (hs : NoTopic s) :
    NoTopic (handleTextRequest s u).store := by
  rw [handleTextRequest_store]
  exact noTopic_getState u hs

theorem noTopic_handleMessage {s : Store} (u : Int) (t : String)
    (hs : NoTopic s) : NoTopic (handleMessage s u t).store := by
  unfold handleMessage
  dsimp only
  split
  · exact noTopic_sendCategories u
      (noTopic_setState (noTopic_getState u hs) (by decide))
  · split
    · exact noTopic_handleTextRequest u (noTopic_getState u hs)
    · split
      · exact noTopic_sendCategories u (noTopic_getState u hs)
      · exact noTopic_getState u hs

theorem noTopic_handleCallback (env : Env) {s : Store} (u : Int)
    (d cb : String) (hs : NoTopic s) :
    NoTopic (handleCallback env s u d cb).store := by
  unfold handleCallback
  dsimp only
  by_cases hc : (getState s u).2.WaitingFor = StateCategory
  · rw [if_pos hc]
    exact noTopic_getState u hs
  · rw [if_neg hc, if_neg (noTopic_getState_snd u hs)]
    exact noTopic_getState u hs

theorem noTopic_step (env : Env) {s : Store} (e : Event) (hs : NoTopic s) :
    NoTopic (step env s e).store := by
  cases e with
  | message u t => exact noTopic_handleMessage u t hs
  | callback u d cb => exact noTopic_handleCallback env u d cb hs

theorem textGenCalls_step (env : Env) {s : Store} (e : Event)
    (hs : NoTopic s) : textGenCalls (step env s e).out = [] := by
  cases e with
  | message u t =>
      show textGenCalls (handleMessage s u t).out = []
      unfold handleMessage
      dsimp only
      split
      · exact textGenCalls_sendCategories _ u
      · split
        · exact textGenCalls_handleTextRequest _ u
        · split
          · exact textGenCalls_sendCategories _ u
          · rfl
  | callback u d cb =>
      show textGenCalls (handleCallback env s u d cb).out = []
      unfold handleCallback
      dsimp only
      by_cases hc : (getState s u).2.WaitingFor = StateCategory
      · rw [if_pos hc]
        rfl
      · rw [if_neg hc, if_neg (noTopic_getState_snd u hs)]
        rfl

theorem noTopic_run (evs : List (Env × Event)) :
    ∀ s : Store, NoTopic s → NoTopic (run s evs) := by
  induction evs with
  | nil => intro s hs; exact hs
  | cons p rest ih =>
      intro s hs
      unfold run
      dsimp only
      split
      · exact noTopic_step p.1 p.2 hs
      · exact ih _ (noTopic_step p.1 p.2 hs)

theorem textGenCalls_runTrace (evs : List (Env × Event)) :
    ∀ s : Store, NoTopic s → textGenCalls (runTrace s evs) = [] := by
  induction evs with
  | nil => intro s hs; rfl
  | cons p rest ih =>
      intro s hs
      unfold runTrace
      dsimp only
      split
      · exact textGenCalls_step p.1 p.2 hs
      · rw [textGenCalls_append, textGenCalls_step p.1 p.2 hs,
            ih _ (noTopic_step p.1 p.2 hs)]
        rfl

/-- C9: the get-or-create lookup creates and stores a fresh session at the
initial phase with empty category, topic and script for a user identifier not
present in the store, and for an identifier already present it returns the
stored session with the store unchanged. -/
theorem getState_get_or_create (store : Store) (u : Int) :
    (store u = none →
      getState store u = (setState store u freshState, freshState) ∧
      (getState store u).1 u = some freshState ∧
      freshState.WaitingFor = StateInitial ∧ freshState.Category = "" ∧
      freshState.Topic = "" ∧ freshState.ScriptText = "") ∧
    ∀ st, store u = some st → getState store u = (store, st) := by
  constructor
  · intro h
    refine ⟨getState_of_none h, ?_, rfl, rfl, rfl, rfl⟩
    rw [getState_of_none h]
    exact setState_self store u freshState
  · intro st h
    exact getState_of_some h

/-- Witness for C9 at the empty store (unknown user) and at a one-entry store
(known user). -/
theorem getState_get_or_create_witness :
    (emptyStore 1 = none ∧
      (getState emptyStore 1 = (setState emptyStore 1 freshState, freshState) ∧
       (getState emptyStore 1).1 1 = some freshState ∧
       freshState.WaitingFor = StateInitial ∧ freshState.Category = "" ∧
       freshState.Topic = "" ∧ freshState.ScriptText = "")) ∧
    (storeCat 1 = some ⟨"", "", StateCategory, ""⟩ ∧
      getState storeCat 1 = (storeCat, ⟨"", "", StateCategory, ""⟩)) :=
  ⟨⟨rfl, (getState_get_or_create emptyStore 1).1 rfl⟩,
   ⟨rfl, (getState_get_or_create storeCat 1).2 _ rfl⟩⟩

/-- C3: handling the /new command leaves the user's session at the category
phase with category, topic and script all empty, and emits the category-offer
message. -/
theorem newCommand_resets_and_offers (store : Store) (u : Int) :
    (handleMessage store u "/new").store u = some ⟨"", "", StateCategory, ""⟩ ∧
    (handleMessage store u "/new").out =
      [Out.sendKeyboard u "Choose podcast category:" [categories]] ∧
    (handleMessage store u "/new").panicked = false := by
  have h : handleMessage store u "/new" =
      sendCategories (resetState (getState store u).1 u) u := by
    unfold handleMessage
    dsimp only
    rw [if_pos rfl]
  rw [h]
  unfold resetState sendCategories
  rw [setState_self]
  exact ⟨setState_self _ _ _, rfl, rfl⟩

/-- C10: handling the /text command modifies no existing session: every
session stored before the command is stored unchanged afterwards. -/
theorem textRequest_frame (store : Store) (u v : Int) (st : UserState)
    (h : store v = some st) :
    (handleMessage store u "/text").store v = some st := by
  have e : handleMessage store u "/text" =
      handleTextRequest (getState store u).1 u := by
    unfold handleMessage
    dsimp only
    rw [if_neg (by decide), if_pos rfl]
  rw [e, handleTextRequest_store]
  exact getState_fst_pres u (getState_fst_pres u h)

/-- Witness for C10: another user's /text leaves user 1's session intact. -/
theorem textRequest_frame_witness :
    storeTopicHealth 1 = some ⟨"Health", "", StateTopic, ""⟩ ∧
    (handleMessage storeTopicHealth 2 "/text").store 1 =
      some ⟨"Health", "", StateTopic, ""⟩ :=
  ⟨rfl, textRequest_frame storeTopicHealth 2 1 _ rfl⟩

/-- C1 (code_bug evidence): with an oracle that would fail the
topic-suggestion call, a category selection never reaches that call. The
handler self-deadlocks at bot.go:150 (`b.mu` taken at 149, retaken inside
`getState` at 77), so none of the claimed recovery happens: no error notice,
no category menu (the trace is empty) — the store is simply left
untouched. -/
theorem categoryFail_deadlocks (env : Env) (store : Store) (u : Int)
    (label : String)
    (h : env.createChatCompletion (topicsPrompt label) = none) :
    (handleCategorySelection env store u label).deadlocked = true ∧
    (handleCategorySelection env store u label).out = [] ∧
    (handleCategorySelection env store u label).store = store :=
  ⟨rfl, rfl, rfl⟩

/-- Witness for C1: the failing oracle and a concrete category-phase store. -/
theorem categoryFail_deadlocks_witness :
    Env.createChatCompletion envFailText (topicsPrompt "Health") = none ∧
    ((handleCategorySelection envFailText storeCat 1 "Health").deadlocked = true ∧
     (handleCategorySelection envFailText storeCat 1 "Health").out = [] ∧
     (handleCategorySelection envFailText storeCat 1 "Health").store = storeCat) :=
  ⟨rfl, categoryFail_deadlocks envFailText storeCat 1 "Health" rfl⟩

/-- C4 (code_bug evidence): a category-phase selection performs none of the
claimed transition: the handler deadlocks at bot.go:150 before the writes at
151-152 and the call at 157, so the session entry is unchanged (category and
phase are not written) and no text-generation call is made at all. -/
theorem categorySelection_no_effects (env : Env) (store : Store) (u : Int)
    (label : String) :
    (handleCategorySelection env store u label).deadlocked = true ∧
    (handleCategorySelection env store u label).store u = store u ∧
    textGenCalls (handleCategorySelection env store u label).out = [] :=
  ⟨rfl, rfl, rfl⟩

/-- Counterexample to C5 as stated: the empty stored script has length at
most 4000, yet handling /text emits the fixed no-script notice instead of the
stored script verbatim. -/
theorem textRequest_empty_not_verbatim :
    storeEmptyScript 1 = some ⟨"Health", "Exercise", StateTopic, ""⟩ ∧
    String.length "" ≤ 4000 ∧
    (handleTextRequest storeEmptyScript 1).out =
      [Out.sendMsg 1 "No script available. Please create a podcast first!"] ∧
    (handleTextRequest storeEmptyScript 1).out ≠ [Out.sendMsg 1 ""] := by
  decide

/-- C5 amended: for a stored script longer than 4000 characters, handling
/text emits the first 4000 characters followed by the truncation marker, and
the emitted message never exceeds the 4096-character transport limit; a
non-empty stored script of length at most 4000 is emitted verbatim (the empty
script instead yields the no-script notice). -/
theorem textRequest_truncation (store : Store) (u : Int) (st : UserState)
    (h : store u = some st) :
    (st.ScriptText.length > 4000 →
      (handleTextRequest store u).out =
        [Out.sendMsg u
          (String.mk (st.ScriptText.data.take 4000) ++ "\n... [truncated]")] ∧
      ∀ m, (handleTextRequest store u).out = [Out.sendMsg u m] →
        m.length ≤ 4096) ∧
    (st.ScriptText ≠ "" → st.ScriptText.length ≤ 4000 →
      (handleTextRequest store u).out = [Out.sendMsg u st.ScriptText]) := by
  unfold handleTextRequest
  rw [getState_of_some h]
  dsimp only
  constructor
  · intro hl
    have hne : st.ScriptText ≠ "" := by
      intro e
      rw [e] at hl
      exact absurd hl (by decide)
    rw [if_neg hne]
    dsimp only
    rw [if_pos hl]
    refine ⟨rfl, ?_⟩
    intro m hm
    simp only [List.cons.injEq, Out.sendMsg.injEq, and_true, true_and] at hm
    rw [← hm, String.length_append, String.length_mk, List.length_take]
    have h16 : ("\n... [truncated]" : String).length = 16 := rfl
    rw [h16]
    have := Nat.min_le_left 4000 st.ScriptText.data.length
    omega
  · intro hne hle
    rw [if_neg hne]
    dsimp only
    rw [if_neg (by omega : ¬ st.ScriptText.length > 4000)]

theorem longScript_length : longScript.length = 4001 := by
  rw [longScript, String.length_mk, List.length_replicate]

/-- Witness for C5 amended: a 4001-character script is truncated and a short
script is sent verbatim. -/
theorem textRequest_truncation_witness :
    (storeLong 1 = some ⟨"Health", "Exercise", StateTopic, longScript⟩ ∧
     longScript.length > 4000 ∧
     (handleTextRequest storeLong 1).out =
       [Out.sendMsg 1
         (String.mk (longScript.data.take 4000) ++ "\n... [truncated]")]) ∧
    (storeShort 1 = some ⟨"Health", "Exercise", StateTopic, "Hi!"⟩ ∧
     (handleTextRequest storeShort 1).out = [Out.sendMsg 1 "Hi!"]) :=
  ⟨⟨rfl, by rw [longScript_length]; omega,
    ((textRequest_truncation storeLong 1 _ rfl).1
      (by rw [longScript_length]; omega)).1⟩,
   ⟨rfl, (textRequest_truncation storeShort 1 _ rfl).2 (by decide) (by decide)⟩⟩

/-- Counterexample to C7 as stated: a three-segment response has fewer than 5
comma-separated segments, yet the topic-offer indexing stays in bounds and
produces a two-row layout (the second row is just empty). -/
theorem sendTopics_three_segments_ok :
    (splitTopics "a,b,c").length < 5 ∧
    (sendTopics emptyStore 1 (splitTopics "a,b,c")).panicked = false ∧
    (sendTopics emptyStore 1 (splitTopics "a,b,c")).out =
      [Out.sendKeyboard 1 "Choose a specific topic:" [["a", "b", "c"], []]] := by
  decide

/-- C7 amended: the fixed row-indexing of the topic offer is an out-of-bounds
access exactly when the comma-split yields fewer than 3 segments, and the
offer then fails; with 3 or more segments (in particular 3 or 4, still fewer
than the expected 5) it produces the two-row layout of the first 3 candidates
and the remaining ones. -/
theorem sendTopics_bounds (store : Store) (u : Int) (s : String) :
    ((splitTopics s).length < 3 →
      (sendTopics store u (splitTopics s)).panicked = true ∧
      (sendTopics store u (splitTopics s)).out = []) ∧
    (3 ≤ (splitTopics s).length →
      (sendTopics store u (splitTopics s)).panicked = false ∧
      (sendTopics store u (splitTopics s)).out =
        [Out.sendKeyboard u "Choose a specific topic:"
          [(splitTopics s).take 3, (splitTopics s).drop 3]]) := by
  constructor
  · intro h
    unfold sendTopics
    rw [if_pos h]
    exact ⟨rfl, rfl⟩
  · intro h
    unfold sendTopics
    rw [if_neg (by omega : ¬ (splitTopics s).length < 3)]
    exact ⟨rfl, rfl⟩

/-- Witness for C7 amended: one segment panics, four segments lay out 3+1. -/
theorem sendTopics_bounds_witness :
    ((splitTopics "a").length < 3 ∧
     (sendTopics emptyStore 1 (splitTopics "a")).panicked = true ∧
     (sendTopics emptyStore 1 (splitTopics "a")).out = []) ∧
    (3 ≤ (splitTopics "a,b,c,d").length ∧
     (sendTopics emptyStore 1 (splitTopics "a,b,c,d")).panicked = false ∧
     (sendTopics emptyStore 1 (splitTopics "a,b,c,d")).out =
       [Out.sendKeyboard 1 "Choose a specific topic:"
         [(splitTopics "a,b,c,d").take 3, (splitTopics "a,b,c,d").drop 3]]) :=
  ⟨⟨by decide, (sendTopics_bounds emptyStore 1 "a").1 (by decide)⟩,
   ⟨by decide, (sendTopics_bounds emptyStore 1 "a,b,c,d").2 (by decide)⟩⟩

/-- C2 (code_bug evidence): a selection event for a session in the category
phase deadlocks at bot.go:150 before the acknowledgment at bot.go:126, so the
event is never acknowledged (no ack — indeed no effect at all — is emitted),
violating the claimed exactly-one-acknowledgment contract. -/
theorem callbackCategory_never_acked (env : Env) (store : Store) (u : Int)
    (d cb : String) (st : UserState) (h : store u = some st)
    (hc : st.WaitingFor = StateCategory) :
    (handleCallback env store u d cb).deadlocked = true ∧
    ackCount (handleCallback env store u d cb).out = 0 ∧
    Out.ack cb ∉ (handleCallback env store u d cb).out := by
  unfold handleCallback
  dsimp only
  rw [getState_of_some h]
  dsimp only
  rw [hc, if_pos rfl]
  exact ⟨rfl, rfl, List.not_mem_nil _⟩

/-- Witness for C2: the concrete category-phase session. -/
theorem callbackCategory_never_acked_witness :
    (storeCat 1 = some ⟨"", "", StateCategory, ""⟩) ∧
    ((handleCallback envFive storeCat 1 "Health" "cb").deadlocked = true ∧
     ackCount (handleCallback envFive storeCat 1 "Health" "cb").out = 0 ∧
     Out.ack "cb" ∉ (handleCallback envFive storeCat 1 "Health" "cb").out) :=
  ⟨rfl,
   callbackCategory_never_acked envFive storeCat 1 "Health" "cb"
     ⟨"", "", StateCategory, ""⟩ rfl rfl⟩

/-- Counterexample to C6 as stated: after a failing generation call in the
topic phase the stored phase is the category phase, not the topic phase — the
category-menu re-send inside the error path resets it. -/
theorem topicFail_phase_counterexample :
    (handleCallback envFailText storeTopicHealth 1 "Exercise" "cb").store 1 =
      some ⟨"Health", "Exercise", StateCategory, ""⟩ ∧
    StateCategory ≠ StateTopic := by
  decide

/-- C6 amended: when the script-generation call fails while handling a
selection in the topic phase, the handler emits the generic error notice and
re-sends the category menu, and the menu re-send also resets the stored phase
to the category phase (the phase does not remain the topic phase). -/
theorem topicFail_error_and_menu (env : Env) (store : Store) (u : Int)
    (d cb : String) (st : UserState) (h : store u = some st)
    (ht : st.WaitingFor = StateTopic)
    (hfail : env.createChatCompletion (scriptPrompt d st.Category) = none) :
    (handleCallback env store u d cb).store u =
      some ⟨st.Category, d, StateCategory, st.ScriptText⟩ ∧
    (handleCallback env store u d cb).out =
      [Out.aiCall (scriptPrompt d st.Category),
       Out.sendMsg u "Error generating content. Please try again.",
       Out.sendKeyboard u "Choose podcast category:" [categories],
       Out.ack cb] := by
  unfold handleCallback
  dsimp only
  rw [getState_of_some h]
  dsimp only
  rw [ht, if_neg (by decide : ¬ StateTopic = StateCategory), if_pos rfl]
  unfold handleTopicSelection
  dsimp only
  rw [getState_of_some h]
  dsimp only
  rw [hfail]
  dsimp only
  unfold sendError sendCategories
  rw [setState_self]
  dsimp only
  exact ⟨setState_self _ _ _, rfl⟩

/-- Witness for C6 amended: the concrete topic-phase session with a failing
oracle. -/
theorem topicFail_error_and_menu_witness :
    (storeTopicHealth 1 = some ⟨"Health", "", StateTopic, ""⟩ ∧
     Env.createChatCompletion envFailText (scriptPrompt "Exercise" "Health") = none) ∧
    ((handleCallback envFailText storeTopicHealth 1 "Exercise" "cb").store 1 =
       some ⟨"Health", "Exercise", StateCategory, ""⟩ ∧
     (handleCallback envFailText storeTopicHealth 1 "Exercise" "cb").out =
       [Out.aiCall (scriptPrompt "Exercise" "Health"),
        Out.sendMsg 1 "Error generating content. Please try again.",
        Out.sendKeyboard 1 "Choose podcast category:" [categories],
        Out.ack "cb"]) :=
  ⟨⟨rfl, rfl⟩,
   topicFail_error_and_menu envFailText storeTopicHealth 1 "Exercise" "cb"
     ⟨"Health", "", StateTopic, ""⟩ rfl rfl rfl⟩

/-- C8: in every session state reachable by any sequence of handled inbound
events (with arbitrary label strings in selection events), a topic-phase
session has a non-empty category, and every attempted script-generation call
has a non-empty topic. Both parts hold of the code, vacuously: the only write
of the topic phase (bot.go:152) lies beyond the self-deadlock at bot.go:150,
so no reachable session is ever in the topic phase (first conjunct) and no
text-generation call — in particular no script call — is ever issued (third
conjunct); the claim's two implications are the second and fourth
conjuncts. -/
theorem phase_topic_invariant (evs : List (Env × Event)) :
    (∀ u st, run emptyStore evs u = some st → st.WaitingFor ≠ StateTopic) ∧
    (∀ u st, run emptyStore evs u = some st →
      st.WaitingFor = StateTopic → st.Category ≠ "") ∧
    textGenCalls (runTrace emptyStore evs) = [] ∧
    (∀ t c, Out.aiCall (scriptPrompt t c) ∈ runTrace emptyStore evs →
      t ≠ "") := by
  have h1 := noTopic_run evs emptyStore noTopic_emptyStore
  have h2 := textGenCalls_runTrace evs emptyStore noTopic_emptyStore
  refine ⟨h1, ?_, h2, ?_⟩
  · intro u st hr ht
    exact absurd ht (h1 u st hr)
  · intro t c hmem
    have h3 := aiCall_mem_textGenCalls hmem
    rw [h2] at h3
    cases h3

/-- Witness for C8: /new followed by a Health selection ends (at the
category-selection deadlock) with the session still in the category phase,
and the run issues no text-generation call. -/
theorem phase_topic_invariant_witness :
    run emptyStore evsGood 1 = some ⟨"", "", StateCategory, ""⟩ ∧
    StateCategory ≠ StateTopic ∧
    textGenCalls (runTrace emptyStore evsGood) = [] :=
  ⟨by decide,
   (phase_topic_invariant evsGood).1 1 ⟨"", "", StateCategory, ""⟩ (by decide),
   (phase_topic_invariant evsGood).2.2.1⟩

end Podcaster
